import Mathlib

/-!
Verification of the `ir_pell_accepts` metrics core (headcount_calcs.py) against
its specification.  Tables are embedded as lists of rows whose fields mirror the
columns each function reads; a missing (null / NaN) cell is `none`.  Identifier
sets are `Finset String` built from the non-null id cells, matching the
`set(series.dropna())` idiom of the source.  Python's `ZeroDivisionError` on an
integer division with zero denominator is embedded as an explicit `Except`
error value.
-/

namespace IrPellAccepts

/-! ### Term / cohort arithmetic (helper module)

The module `ir_pell_accepts.helper` (functions `calc_academic_year_from_term`,
`construct_cohort`, `adjust_term`) is imported by headcount_calcs.py but its
source file is not part of the repository snapshot; the definitions below are
modelled from the specification (spec section 4.1 and Scenario A). -/

/-- Decimal value of a digit character, `none` on any other character. -/
def digit? (c : Char) : Option Nat :=
  if c = '0' then some 0 else if c = '1' then some 1 else if c = '2' then some 2
  else if c = '3' then some 3 else if c = '4' then some 4 else if c = '5' then some 5
  else if c = '6' then some 6 else if c = '7' then some 7 else if c = '8' then some 8
  else if c = '9' then some 9 else none

/-- The digit character for `d ≤ 9` (clamping larger values to `'9'`). -/
def digitChar (d : Nat) : Char :=
  if d = 0 then '0' else if d = 1 then '1' else if d = 2 then '2' else if d = 3 then '3'
  else if d = 4 then '4' else if d = 5 then '5' else if d = 6 then '6' else if d = 7 then '7'
  else if d = 8 then '8' else '9'

/-- The four decimal digit characters of `n % 10000`, most significant first. -/
def pad4c (n : Nat) : List Char :=
  [digitChar (n / 1000 % 10), digitChar (n / 100 % 10), digitChar (n / 10 % 10),
   digitChar (n % 10)]

/-- `n % 10000` rendered as a zero-padded 4-digit string. -/
def pad4 (n : Nat) : String := ⟨pad4c n⟩

/-- Parse a string of exactly four decimal digits, `none` otherwise. -/
def year4? (s : String) : Option Nat :=
  match s.data with
  | [a, b, c, d] => do
      let x ← digit? a
      let y ← digit? b
      let z ← digit? c
      let w ← digit? d
      pure (1000 * x + 100 * y + 10 * z + w)
  | _ => none

/-- Modelled from the spec: `ir_pell_accepts.helper.calc_academic_year_from_term`
is absent from the snapshot.  Per spec section 3 the aid-year values compared
against it are 4-digit labels like `"2025"`, and Scenarios A and B fix the
value at the leading 4-digit calendar year of the term code. -/
def calc_academic_year_from_term (term : String) : String := term.take 4

/-- Modelled from the spec: `ir_pell_accepts.helper.construct_cohort` is absent
from the snapshot.  Spec section 4.1: the canonical cohort label is
`"<4-digit-year> Fall, Full-Time"`. -/
def construct_cohort (term : String) : String := term.take 4 ++ " Fall, Full-Time"

/-- Modelled from the spec: `ir_pell_accepts.helper.adjust_term` is absent from
the snapshot.  Spec section 4.1: shift the leading 4-digit calendar year by an
integer number of years, preserve the 2-digit term suffix, and produce a new
4-digit-year-prefixed term code (here rendered zero-padded; a shift below
year 0 clamps at 0). -/
def adjust_term (term : String) (years : Int) : String :=
  pad4 ((((year4? (term.take 4)).getD 0 : Int) + years).toNat) ++ term.drop 4

/-! ### Data model: one structure per table, fields are the columns read. -/

/-- A row of the Pell / financial-aid award table. -/
structure AidRow where
  id : Option String
  aidYear : Option String
deriving DecidableEq, Repr

/-- A row of the cohort / retention table. -/
structure CohortRow where
  id : Option String
  cohortName : Option String
  yearsToGrad : Option String
  secondFall : Option String
deriving DecidableEq, Repr

/-- A row of the census-date enrollment table. -/
structure EnrollRow where
  id : Option String
  academicPeriod : Option String
  timeStatus : Option String
  studentLevel : Option String
  degree : Option String
deriving DecidableEq, Repr

/-- `series.dropna()` followed by `set(...)`: the distinct non-null ids. -/
def idSet (l : List (Option String)) : Finset String := (l.filterMap id).toFinset

/-! ### Numeric parsing: `pd.to_numeric(·, errors=coerce)` on decimal literals. -/

/-- Accumulator loop over digit characters. -/
def parseDigitsAux : List Char → Nat → Option Nat
  | [], acc => some acc
  | c :: cs, acc =>
      match digit? c with
      | some d => parseDigitsAux cs (acc * 10 + d)
      | none => none

/-- Parse a non-empty all-digit character list. -/
def parseNat? (cs : List Char) : Option Nat :=
  if cs.isEmpty then none else parseDigitsAux cs 0

/-- Tolerant numeric parse of a cell, mirroring `pd.to_numeric(·, errors=coerce)`
on plain decimal literals (optional sign, optional fractional part): any string
it does not recognise becomes `none` (pandas: `NaN`), never an error.  The
value is assembled with `mkRat`, so `intPart.fracPart` denotes
`±(intPart * 10^k + fracPart) / 10^k`. -/
def toNumeric? (s : String) : Option Rat :=
  let (neg, rest) : Bool × List Char :=
    match s.data with
    | '-' :: t => (true, t)
    | '+' :: t => (false, t)
    | t => (false, t)
  let signed : Int → Int := fun m => if neg then -m else m
  match rest.span (fun c => ¬ c = '.') with
  | (intPart, []) => (parseNat? intPart).map (fun n => mkRat (signed n) 1)
  | (intPart, _ :: fracPart) =>
      if fracPart.contains '.' then none
      else do
        let n ← parseNat? intPart
        let f ← parseNat? fracPart
        pure (mkRat (signed (n * 10 ^ fracPart.length + f)) (10 ^ fracPart.length))

/-- The graduation test applied to one cohort row: the parsed
`Years to Graduation` value is at most the threshold.  A null cell (dropped by
`dropna()` and re-aligned as `False` by the pandas boolean `&`) and an
unparsable cell (coerced to `NaN`, and `NaN <= n` is `False`) both fail the
test, matching lines 248-250 of headcount_calcs.py. -/
def ytgLE (yearsToGrad : Int) (r : CohortRow) : Bool :=
  match r.yearsToGrad with
  | none => false
  | some s =>
      match toNumeric? s with
      | none => false
      | some q => decide (q ≤ (yearsToGrad : Rat))

/-! ### Python error values surfaced by the metric functions. -/

/-- Errors a metric call can surface.  `zeroDivisionError` is Python's built-in
raised by `n / 0` on integers; `undefinedRateError` is the named error the
spec's error taxonomy (section 7) asks for, carrying the rate name and the
term/threshold description. -/
inductive PyErr where
  | zeroDivisionError : PyErr
  | undefinedRateError (rate : String) (context : String) : PyErr
deriving DecidableEq, Repr

/-! ### Metric functions (headcount_calcs.py).  Validation (checks.py) only
gates column presence, which the row structures make intrinsic, so every input
here is a validated input. -/

/-- `grs_cohort_pell` (lines 5-52): distinct non-null aid-table ids at the
term's aid year, intersected with distinct non-null cohort-table ids at the
term's cohort label. -/
def grs_cohort_pell (dfp : List AidRow) (dfr : List CohortRow) (term : String) : Nat :=
  let aidYear := calc_academic_year_from_term term
  let cohort := construct_cohort term
  let pids := idSet ((dfp.filter (fun r => r.aidYear == some aidYear)).map (·.id))
  let rids := idSet ((dfr.filter (fun r => r.cohortName == some cohort)).map (·.id))
  (pids ∩ rids).card

/-- `grs_cohort` (lines 55-88): `sum(dfr[cohort_column] == cohort)`, the number
of rows (not distinct ids) whose cohort name equals the term's cohort label. -/
def grs_cohort (dfr : List CohortRow) (term : String) : Nat :=
  let cohort := construct_cohort term
  (dfr.filter (fun r => r.cohortName == some cohort)).length

/-- `filter_enrollment_table` (lines 91-98): academic period equals the term,
full-time, undergraduate, not non-degree.  A null `Degree` cell satisfies
`!= 'Non Degree'` exactly as pandas does. -/
def filter_enrollment_table (dfe : List EnrollRow) (term : String) : List EnrollRow :=
  dfe.filter (fun r =>
    r.academicPeriod == some term && r.timeStatus == some "FT" &&
    r.studentLevel == some "UG" && !(r.degree == some "Non Degree"))

/-- `fall_enrollment` (lines 131-209): the four-way policy switch over
`(pell, transfer)`.  The subtraction is Python integer subtraction, so the
result is an `Int` and may be negative. -/
def fall_enrollment (dfp : List AidRow) (dfr : List CohortRow) (dfe : List EnrollRow)
    (term : String) (pell : Bool) (transfer : Bool) : Int :=
  let dfeF := filter_enrollment_table dfe term
  let aidYear := calc_academic_year_from_term term
  let incomingTransferCohort := term.take 4 ++ " " ++ "Fall, Transfer, Full-Time"
  let pids := idSet ((dfp.filter (fun r => r.aidYear == some aidYear)).map (·.id))
  let eids := idSet (dfeF.map (·.id))
  let ridsT := idSet ((dfr.filter (fun r => r.cohortName == some incomingTransferCohort)).map (·.id))
  let nPellIntr := (pids ∩ eids ∩ ridsT).card
  if !pell && !transfer then (eids.card : Int) - (ridsT.card : Int)
  else if pell && !transfer then ((pids ∩ eids).card : Int) - (nPellIntr : Int)
  else if !pell && transfer then ((eids ∩ ridsT).card : Int)
  else (nPellIntr : Int)

/-- `round(q, 3)`: round to 3 decimal places, ties to the even neighbour, as
Python's built-in `round` is documented to do.  (Python rounds a binary float;
on the exact rationals the claims exercise no representation tie arises.)
Written over the numerator and denominator so it evaluates in the kernel:
with `a / b = 1000 * q + 1 / 2`, the integer `⌊a / b⌋` is the half-up rounding
of `1000 * q`, the tie case `b ∣ a` steps an odd result down to the even
neighbour, and the result is that integer over 1000. -/
def round3 (q : Rat) : Rat :=
  let a : Int := 2000 * q.num + (q.den : Int)
  let b : Int := 2 * (q.den : Int)
  let n := Int.fdiv a b
  mkRat (if a % b = 0 ∧ n % 2 ≠ 0 then n - 1 else n) 1000

/-- `grs_cohort_grad` (lines 211-253): rows matching the cohort label whose
years-to-graduation parses and is at most the threshold, divided by the cohort
row count; `n_grad / n_tot` with `n_tot = 0` raises `ZeroDivisionError`. -/
def grs_cohort_grad (dfr : List CohortRow) (term : String) (yearsToGrad : Int) :
    Except PyErr Rat :=
  let cohort := construct_cohort term
  let nGrad := (dfr.filter (fun r => r.cohortName == some cohort && ytgLE yearsToGrad r)).length
  let nTot := grs_cohort dfr term
  if nTot = 0 then .error .zeroDivisionError
  else .ok (round3 (mkRat nGrad nTot))

/-- `grs_cohort_pell_grad` (lines 256-312): distinct non-null ids of cohort
rows that match the label and pass the graduation test, intersected with the
term's pell ids, divided by `grs_cohort_pell`; a zero denominator raises
`ZeroDivisionError`. -/
def grs_cohort_pell_grad (dfp : List AidRow) (dfr : List CohortRow) (term : String)
    (yearsToGrad : Int) : Except PyErr Rat :=
  let aidYear := calc_academic_year_from_term term
  let cohort := construct_cohort term
  let pids := idSet ((dfp.filter (fun r => r.aidYear == some aidYear)).map (·.id))
  let rids := idSet ((dfr.filter
    (fun r => r.cohortName == some cohort && ytgLE yearsToGrad r)).map (·.id))
  let nGrad := (pids ∩ rids).card
  let nTot := grs_cohort_pell dfp dfr term
  if nTot = 0 then .error .zeroDivisionError
  else .ok (round3 (mkRat nGrad nTot))

/-- `second_year_retention_rate` (lines 315-355): rows matching the cohort
label whose second-fall period equals `adjust_term(term, 1)`, divided by the
cohort row count; a zero denominator raises `ZeroDivisionError`. -/
def second_year_retention_rate (dfr : List CohortRow) (term : String) :
    Except PyErr Rat :=
  let retentionTerm := adjust_term term 1
  let cohort := construct_cohort term
  let nRet := (dfr.filter
    (fun r => r.cohortName == some cohort && r.secondFall == some retentionTerm)).length
  let nTot := grs_cohort dfr term
  if nTot = 0 then .error .zeroDivisionError
  else .ok (round3 (mkRat nRet nTot))

/-- `second_year_retention_rate_pell` (lines 358-413): distinct non-null ids of
cohort rows matching the label and retained at `adjust_term(term, 1)`,
intersected with the term's pell ids, divided by `grs_cohort_pell`; a zero
denominator raises `ZeroDivisionError`. -/
def second_year_retention_rate_pell (dfp : List AidRow) (dfr : List CohortRow)
    (term : String) : Except PyErr Rat :=
  let aidYear := calc_academic_year_from_term term
  let retentionTerm := adjust_term term 1
  let cohort := construct_cohort term
  let pids := idSet ((dfp.filter (fun r => r.aidYear == some aidYear)).map (·.id))
  let rids := idSet ((dfr.filter
    (fun r => r.cohortName == some cohort && r.secondFall == some retentionTerm)).map (·.id))
  let nRet := (pids ∩ rids).card
  let nTot := grs_cohort_pell dfp dfr term
  if nTot = 0 then .error .zeroDivisionError
  else .ok (round3 (mkRat nRet nTot))

/-! ### Spec-side id sets, following the wording of the policy table
(spec section 4.3): `E`, `P`, `T`, `NT_pell`. -/

/-- Spec `E`: distinct non-null enrolled ids after the enrollment filter. -/
def specE (dfe : List EnrollRow) (term : String) : Finset String :=
  idSet ((filter_enrollment_table dfe term).map (·.id))

/-- Spec `P`: distinct non-null aid-table ids at the term's aid year. -/
def specP (dfp : List AidRow) (term : String) : Finset String :=
  idSet ((dfp.filter
    (fun r => r.aidYear == some (calc_academic_year_from_term term))).map (·.id))

/-- Spec `T`: distinct non-null cohort-table ids at the transfer-cohort
literal. -/
def specT (dfr : List CohortRow) (term : String) : Finset String :=
  idSet ((dfr.filter
    (fun r => r.cohortName == some (term.take 4 ++ " Fall, Transfer, Full-Time"))).map (·.id))

/-- Spec `NT_pell = P ∩ E ∩ T`. -/
def specNTpell (dfp : List AidRow) (dfr : List CohortRow) (dfe : List EnrollRow)
    (term : String) : Finset String :=
  specP dfp term ∩ specE dfe term ∩ specT dfr term

/-- Spec `R` (Scenario B): distinct non-null cohort-table ids at the term's
cohort label. -/
def specR (dfr : List CohortRow) (term : String) : Finset String :=
  idSet ((dfr.filter (fun r => r.cohortName == some (construct_cohort term))).map (·.id))

/-! ### Concrete tables for the spec scenarios and the counterexamples. -/

/-- Scenario B aid table: ids 1, 2, 3 at aid year 2025. -/
def scenB_dfp : List AidRow :=
  [⟨some "1", some "2025"⟩, ⟨some "2", some "2025"⟩, ⟨some "3", some "2025"⟩]

/-- Scenario B cohort table: ids 2, 3, 4 cohorted `2025 Fall, Full-Time`. -/
def scenB_dfr : List CohortRow :=
  [⟨some "2", some "2025 Fall, Full-Time", none, none⟩,
   ⟨some "3", some "2025 Fall, Full-Time", none, none⟩,
   ⟨some "4", some "2025 Fall, Full-Time", none, none⟩]

/-- Scenario C cohort table: 10 rows cohorted to term 202580, exactly 4 of
them with a parsed years-to-graduation of at most 4 (the others larger,
blank, or non-numeric); 4 rows retained at the second fall 202680. -/
def scenC_dfr : List CohortRow :=
  [⟨some "r0", some "2025 Fall, Full-Time", some "4", some "202680"⟩,
   ⟨some "r1", some "2025 Fall, Full-Time", some "3", some "202680"⟩,
   ⟨some "r2", some "2025 Fall, Full-Time", some "2", none⟩,
   ⟨some "r3", some "2025 Fall, Full-Time", some "4", some "202680"⟩,
   ⟨some "r4", some "2025 Fall, Full-Time", some "6", none⟩,
   ⟨some "r5", some "2025 Fall, Full-Time", some "7", some "202680"⟩,
   ⟨some "r6", some "2025 Fall, Full-Time", none, none⟩,
   ⟨some "r7", some "2025 Fall, Full-Time", some "x", none⟩,
   ⟨some "r8", some "2025 Fall, Full-Time", some "5", none⟩,
   ⟨some "r9", some "2025 Fall, Full-Time", some "8.5", none⟩]

/-- Scenario D enrollment table: 100 distinct filtered full-time undergrad
ids S0000 … S0099 in term 202580. -/
def scenD_dfe : List EnrollRow :=
  (List.range 100).map (fun i =>
    ⟨some ("S" ++ pad4 i), some "202580", some "FT", some "UG", some "BA"⟩)

/-- Scenario D cohort table: the 15 enrolled ids S0000 … S0014 form the
2025 transfer cohort. -/
def scenD_dfr : List CohortRow :=
  (List.range 15).map (fun i =>
    ⟨some ("S" ++ pad4 i), some "2025 Fall, Transfer, Full-Time", none, none⟩)

/-- A cohort table with no row in the 2025 cohort: every term-202580
denominator metric evaluates to zero. -/
def zeroDen_dfr : List CohortRow :=
  [⟨some "z1", some "2019 Fall, Full-Time", some "4", some "202080"⟩]

/-- An aid table for the zero-denominator input. -/
def zeroDen_dfp : List AidRow := [⟨some "z1", some "2019"⟩]

/-- A cohort table whose transfer-cohort ids (b, c) are not enrolled: drives
`fall_enrollment(term, pell=False, transfer=False)` below zero. -/
def negT_dfr : List CohortRow :=
  [⟨some "b", some "2025 Fall, Transfer, Full-Time", none, none⟩,
   ⟨some "c", some "2025 Fall, Transfer, Full-Time", none, none⟩]

/-- An enrollment table with the single enrolled id a. -/
def negT_dfe : List EnrollRow :=
  [⟨some "a", some "202580", some "FT", some "UG", some "BA"⟩]

/-- A cohort table with one never-enrolled transfer-cohort id: refutes the
second inequality of the `fall_enrollment` monotonicity chain. -/
def cex5_dfr : List CohortRow :=
  [⟨some "a", some "2025 Fall, Transfer, Full-Time", none, none⟩]

/-- Cohort table for the tolerant-parsing witness: one non-numeric and one
numeric years-to-graduation cell in the 2025 cohort. -/
def tolerant_dfr : List CohortRow :=
  [⟨some "t1", some "2025 Fall, Full-Time", some "n/a", some "202680"⟩,
   ⟨some "t2", some "2025 Fall, Full-Time", some "4", none⟩]

/-- Aid table for the tolerant-parsing witness: id t1 holds aid in 2025. -/
def tolerant_dfp : List AidRow := [⟨some "t1", some "2025"⟩]


/-! ### Digit and 4-digit-year lemmas. -/

lemma digit?_le_nine {c : Char} {d : Nat} (h : digit? c = some d) : d ≤ 9 := by
  unfold digit? at h
  split_ifs at h <;> simp_all <;> omega

lemma digitChar_digit? {c : Char} {d : Nat} (h : digit? c = some d) : digitChar d = c := by
  unfold digit? at h
  split_ifs at h <;> simp_all <;> subst h <;> rfl

lemma digit?_digitChar {d : Nat} (h : d ≤ 9) : digit? (digitChar d) = some d := by
  interval_cases d <;> rfl

lemma year4?_pad4 (k : Nat) : year4? (pad4 k) = some (k % 10000) := by
  have h1 : k / 1000 % 10 ≤ 9 := Nat.le_of_lt_succ (Nat.mod_lt _ (by norm_num))
  have h2 : k / 100 % 10 ≤ 9 := Nat.le_of_lt_succ (Nat.mod_lt _ (by norm_num))
  have h3 : k / 10 % 10 ≤ 9 := Nat.le_of_lt_succ (Nat.mod_lt _ (by norm_num))
  have h4 : k % 10 ≤ 9 := Nat.le_of_lt_succ (Nat.mod_lt _ (by norm_num))
  show (match (pad4 k).data with
    | [a, b, c, d] => do
        let x ← digit? a
        let y ← digit? b
        let z ← digit? c
        let w ← digit? d
        pure (1000 * x + 100 * y + 10 * z + w)
    | _ => none) = some (k % 10000)
  have hdata : (pad4 k).data = pad4c k := rfl
  rw [hdata]
  show (do
      let x ← digit? (digitChar (k / 1000 % 10))
      let y ← digit? (digitChar (k / 100 % 10))
      let z ← digit? (digitChar (k / 10 % 10))
      let w ← digit? (digitChar (k % 10))
      pure (1000 * x + 100 * y + 10 * z + w)) = some (k % 10000)
  rw [digit?_digitChar h1, digit?_digitChar h2, digit?_digitChar h3, digit?_digitChar h4]
  show some (1000 * (k / 1000 % 10) + 100 * (k / 100 % 10) + 10 * (k / 10 % 10) + k % 10)
    = some (k % 10000)
  congr 1
  omega

/-- Unpack a successful `year4?` into its four digits. -/
lemma year4?_elim {s : String} {y : Nat} (h : year4? s = some y) :
    ∃ a b c d xa xb xc xd, s.data = [a, b, c, d] ∧
      digit? a = some xa ∧ digit? b = some xb ∧ digit? c = some xc ∧ digit? d = some xd ∧
      y = 1000 * xa + 100 * xb + 10 * xc + xd := by
  unfold year4? at h
  split at h
  case _ a b c d heq =>
    simp only [bind, Option.bind_eq_some, Option.pure_def, Option.some.injEq] at h
    obtain ⟨xa, hda, xb, hdb, xc, hdc, xd, hdd, hy⟩ := h
    exact ⟨a, b, c, d, xa, xb, xc, xd, heq, hda, hdb, hdc, hdd, hy.symm⟩
  case _ => simp_all

lemma year4?_le {s : String} {y : Nat} (h : year4? s = some y) : y ≤ 9999 := by
  obtain ⟨a, b, c, d, xa, xb, xc, xd, -, hda, hdb, hdc, hdd, hy⟩ := year4?_elim h
  have := digit?_le_nine hda
  have := digit?_le_nine hdb
  have := digit?_le_nine hdc
  have := digit?_le_nine hdd
  omega

lemma pad4_year4? {s : String} {y : Nat} (h : year4? s = some y) : pad4 y = s := by
  obtain ⟨a, b, c, d, xa, xb, xc, xd, heq, hda, hdb, hdc, hdd, hy⟩ := year4?_elim h
  have ba := digit?_le_nine hda
  have bb := digit?_le_nine hdb
  have bc := digit?_le_nine hdc
  have bd := digit?_le_nine hdd
  apply String.ext
  rw [heq]
  show pad4c y = [a, b, c, d]
  have ea : y / 1000 % 10 = xa := by omega
  have eb : y / 100 % 10 = xb := by omega
  have ec : y / 10 % 10 = xc := by omega
  have ed : y % 10 = xd := by omega
  unfold pad4c
  rw [ea, eb, ec, ed, digitChar_digit? hda, digitChar_digit? hdb, digitChar_digit? hdc,
    digitChar_digit? hdd]

/-! ### String plumbing for 4-digit prefixes. -/

lemma pad4c_length (k : Nat) : (pad4c k).length = 4 := rfl

lemma take4_append (k : Nat) (s : String) : (pad4 k ++ s).take 4 = pad4 k := by
  apply String.ext
  rw [String.take_eq, String.data_append]
  show List.take 4 (pad4c k ++ s.data) = pad4c k
  rw [← pad4c_length k, List.take_left]

lemma drop4_append (k : Nat) (s : String) : (pad4 k ++ s).drop 4 = s := by
  apply String.ext
  rw [String.drop_eq, String.data_append]
  show List.drop 4 (pad4c k ++ s.data) = s.data
  rw [← pad4c_length k, List.drop_left]

lemma take_append_drop4 (t : String) : t.take 4 ++ t.drop 4 = t := by
  apply String.ext
  rw [String.data_append, String.take_eq, String.drop_eq]
  exact List.take_append_drop 4 t.data

/-- The inline transfer-cohort string of `fall_enrollment` (line 188 of
headcount_calcs.py) equals the single-literal form used in the spec. -/
lemma transfer_literal (term : String) :
    term.take 4 ++ " " ++ "Fall, Transfer, Full-Time" =
      term.take 4 ++ " Fall, Transfer, Full-Time" := by
  rw [String.append_assoc]
  rfl

/-! ### Rounding lemmas. -/

/-- `round3` stays inside `[0, 1]` and is an integer number of thousandths. -/
lemma round3_bounds {q : Rat} (h0 : 0 ≤ q) (h1 : q ≤ 1) :
    0 ≤ round3 q ∧ round3 q ≤ 1 ∧ ∃ k : Int, round3 q = (k : Rat) / 1000 := by
  have hnum : 0 ≤ q.num := Rat.num_nonneg.mpr h0
  have hden : 0 < (q.den : Int) := by exact_mod_cast q.den_pos
  have hnumden : q.num ≤ (q.den : Int) := by
    have := Rat.le_def.mp h1
    simpa using this
  set a : Int := 2000 * q.num + (q.den : Int) with ha
  set b : Int := 2 * (q.den : Int) with hb
  have hbpos : 0 < b := by omega
  have hna : 0 ≤ a := by omega
  set n : Int := Int.fdiv a b with hn
  have hn0 : 0 ≤ n := Int.fdiv_nonneg hna (le_of_lt hbpos)
  have hn1000 : n ≤ 1000 := by
    have hee : Int.fdiv a b = a / b := Int.fdiv_eq_ediv a (le_of_lt hbpos)
    have : a / b < 1001 := by
      rw [Int.ediv_lt_iff_lt_mul hbpos]
      omega
    omega
  set n' : Int := if a % b = 0 ∧ n % 2 ≠ 0 then n - 1 else n with hn'
  have hr : round3 q = mkRat n' 1000 := rfl
  have hn'0 : 0 ≤ n' := by
    rw [hn']
    split_ifs with htie
    · omega
    · exact hn0
  have hn'1000 : n' ≤ 1000 := by
    rw [hn']
    split_ifs <;> omega
  have hdiv : round3 q = ((n' : Rat)) / 1000 := by
    rw [hr, Rat.mkRat_eq_div]
    norm_num
  refine ⟨?_, ?_, n', hdiv⟩
  · rw [hdiv]
    positivity
  · rw [hdiv, div_le_one (by norm_num : (0 : Rat) < 1000)]
    exact_mod_cast hn'1000

/-! ### Counting lemmas. -/

/-- Filtering on a conjunction of tests keeps no more rows than filtering on
the first test alone. -/
lemma length_filter_and_le {α : Type} (l : List α) (p q : α → Bool) :
    (l.filter (fun a => p a && q a)).length ≤ (l.filter p).length := by
  induction l with
  | nil => simp
  | cons a t ih =>
      by_cases hp : p a <;> by_cases hq : q a <;>
        simp [List.filter_cons, hp, hq] <;> omega

/-- The distinct non-null ids of a projected list are no more numerous than
the rows. -/
lemma idSet_card_le {α : Type} (l : List α) (f : α → Option String) :
    (idSet (l.map f)).card ≤ l.length := by
  unfold idSet
  calc ((l.map f).filterMap id).toFinset.card
      ≤ ((l.map f).filterMap id).length := List.toFinset_card_le _
    _ ≤ (l.map f).length := List.length_filterMap_le _ _
    _ = l.length := List.length_map _ _

/-! ### The four `fall_enrollment` branches, written with the spec id sets. -/

lemma specT_inline (dfr : List CohortRow) (term : String) :
    specT dfr term = idSet ((dfr.filter
      (fun r => r.cohortName == some (term.take 4 ++ " " ++ "Fall, Transfer, Full-Time"))).map
      (·.id)) := by
  unfold specT
  rw [transfer_literal]

lemma fe_ff (dfp : List AidRow) (dfr : List CohortRow) (dfe : List EnrollRow) (term : String) :
    fall_enrollment dfp dfr dfe term false false =
      ((specE dfe term).card : Int) - ((specT dfr term).card : Int) := by
  rw [specT_inline]
  rfl

lemma fe_tf (dfp : List AidRow) (dfr : List CohortRow) (dfe : List EnrollRow) (term : String) :
    fall_enrollment dfp dfr dfe term true false =
      (((specP dfp term ∩ specE dfe term).card : Int)) -
        ((specNTpell dfp dfr dfe term).card : Int) := by
  unfold specNTpell
  rw [specT_inline]
  rfl

lemma fe_ft (dfp : List AidRow) (dfr : List CohortRow) (dfe : List EnrollRow) (term : String) :
    fall_enrollment dfp dfr dfe term false true =
      ((specE dfe term ∩ specT dfr term).card : Int) := by
  rw [specT_inline]
  rfl

lemma fe_tt (dfp : List AidRow) (dfr : List CohortRow) (dfe : List EnrollRow) (term : String) :
    fall_enrollment dfp dfr dfe term true true =
      ((specNTpell dfp dfr dfe term).card : Int) := by
  unfold specNTpell
  rw [specT_inline]
  rfl

/-! ### Claim theorems. -/

/-- C1: at a validated input whose term-202580 denominator metrics are zero,
every rate function surfaces Python's raw `ZeroDivisionError` from
`n / n_tot`, not the named `UndefinedRateError` the spec requires. -/
theorem rate_zero_denominator_raises_raw_zero_division :
    grs_cohort_grad zeroDen_dfr "202580" 4 = .error .zeroDivisionError ∧
    grs_cohort_pell_grad zeroDen_dfp zeroDen_dfr "202580" 4 = .error .zeroDivisionError ∧
    second_year_retention_rate zeroDen_dfr "202580" = .error .zeroDivisionError ∧
    second_year_retention_rate_pell zeroDen_dfp zeroDen_dfr "202580" =
      .error .zeroDivisionError :=
  ⟨rfl, rfl, rfl, rfl⟩

/-- C2: `fall_enrollment` implements the four-way policy table over
`(pell, transfer)` with the spec id sets `E`, `P`, `T`, `NT_pell`; and
Scenario D: 100 distinct filtered enrolled ids, 15 of them the transfer
cohort, give 85. -/
theorem fall_enrollment_policy_table :
    (∀ (dfp : List AidRow) (dfr : List CohortRow) (dfe : List EnrollRow) (term : String),
      fall_enrollment dfp dfr dfe term false false =
        ((specE dfe term).card : Int) - ((specT dfr term).card : Int) ∧
      fall_enrollment dfp dfr dfe term true false =
        ((specP dfp term ∩ specE dfe term).card : Int) -
          ((specNTpell dfp dfr dfe term).card : Int) ∧
      fall_enrollment dfp dfr dfe term false true =
        ((specE dfe term ∩ specT dfr term).card : Int) ∧
      fall_enrollment dfp dfr dfe term true true =
        ((specNTpell dfp dfr dfe term).card : Int)) ∧
    fall_enrollment [] scenD_dfr scenD_dfe "202580" false false = 85 := by
  refine ⟨fun dfp dfr dfe term =>
    ⟨fe_ff dfp dfr dfe term, fe_tf dfp dfr dfe term, fe_ft dfp dfr dfe term,
     fe_tt dfp dfr dfe term⟩, ?_⟩
  set_option maxRecDepth 40000 in decide

/-- C3: `grs_cohort_pell` is the size of the intersection of the aid-year
pell id set with the cohort-label id set; and Scenario B: aid ids 1,2,3 at
aid year 2025 against cohort ids 2,3,4 give 2. -/
theorem cohort_pell_count_spec :
    (∀ (dfp : List AidRow) (dfr : List CohortRow) (term : String),
      grs_cohort_pell dfp dfr term = (specP dfp term ∩ specR dfr term).card) ∧
    grs_cohort_pell scenB_dfp scenB_dfr "202580" = 2 :=
  ⟨fun _ _ _ => rfl, by decide⟩

/-- C4: on a non-empty cohort, `grs_cohort_grad` is the count of cohort rows
passing the years-to-graduation test, divided by the cohort size, rounded to
3 decimal places. -/
theorem cohort_grad_rate_spec (dfr : List CohortRow) (term : String) (yearsToGrad : Int)
    (h : grs_cohort dfr term ≠ 0) :
    grs_cohort_grad dfr term yearsToGrad = .ok (round3
      ((dfr.countP (fun r => r.cohortName == some (construct_cohort term) &&
          ytgLE yearsToGrad r) : Rat) / (grs_cohort dfr term : Rat))) := by
  unfold grs_cohort_grad
  rw [if_neg h, List.countP_eq_length_filter, Rat.mkRat_eq_div]
  norm_num

/-- Witness for C4 at Scenario C: 10 cohorted rows, 4 of them graduating
within 4 years, give the rate 0.4. -/
theorem cohort_grad_rate_spec_witness :
    grs_cohort scenC_dfr "202580" ≠ 0 ∧
    grs_cohort_grad scenC_dfr "202580" 4 = .ok ((2 : Rat) / 5) := by
  refine ⟨by decide, ?_⟩
  rw [cohort_grad_rate_spec scenC_dfr "202580" 4 (by decide)]
  rw [show (scenC_dfr.countP (fun r => r.cohortName == some (construct_cohort "202580") &&
    ytgLE 4 r)) = 4 from by decide]
  rw [show grs_cohort scenC_dfr "202580" = 10 from by decide]
  rw [show ((4 : Nat) : Rat) / ((10 : Nat) : Rat) = mkRat 2 5 from by
    rw [Rat.mkRat_eq_div]; norm_num]
  rw [show round3 (mkRat 2 5) = mkRat 2 5 from by decide]
  rw [Rat.mkRat_eq_div]
  norm_num

/-- C5 counterexample: with one never-enrolled transfer-cohort id the second
inequality of the chain fails, since
`fall_enrollment(term, pell=False, transfer=False)` is negative. -/
theorem fall_enrollment_chain_cex :
    ¬ (fall_enrollment [] cex5_dfr [] "202580" true true ≤
        fall_enrollment [] cex5_dfr [] "202580" false true ∧
       fall_enrollment [] cex5_dfr [] "202580" false true ≤
        fall_enrollment [] cex5_dfr [] "202580" false false +
          fall_enrollment [] cex5_dfr [] "202580" false true) := by
  decide

/-- C5 amended: the first inequality of the chain holds for all inputs; the
second holds whenever the transfer-cohort id count does not exceed the
enrolled id count (in particular whenever every transfer-cohort id is
enrolled). -/
theorem fall_enrollment_chain (dfp : List AidRow) (dfr : List CohortRow)
    (dfe : List EnrollRow) (term : String) :
    fall_enrollment dfp dfr dfe term true true ≤
      fall_enrollment dfp dfr dfe term false true ∧
    ((specT dfr term).card ≤ (specE dfe term).card →
      fall_enrollment dfp dfr dfe term false true ≤
        fall_enrollment dfp dfr dfe term false false +
          fall_enrollment dfp dfr dfe term false true) := by
  constructor
  · rw [fe_tt, fe_ft]
    have hsub : specNTpell dfp dfr dfe term ⊆ specE dfe term ∩ specT dfr term := by
      unfold specNTpell
      exact Finset.inter_subset_inter Finset.inter_subset_right (subset_refl _)
    exact_mod_cast Finset.card_le_card hsub
  · intro h
    rw [fe_ft, fe_ff]
    omega

/-- Witness for C5: one transfer-cohort id that is also enrolled. -/
theorem fall_enrollment_chain_witness :
    (specT cex5_dfr "202580").card ≤ (specE negT_dfe "202580").card ∧
    (fall_enrollment [] cex5_dfr negT_dfe "202580" true true ≤
       fall_enrollment [] cex5_dfr negT_dfe "202580" false true ∧
     fall_enrollment [] cex5_dfr negT_dfe "202580" false true ≤
       fall_enrollment [] cex5_dfr negT_dfe "202580" false false +
         fall_enrollment [] cex5_dfr negT_dfe "202580" false true) :=
  ⟨by decide,
   (fall_enrollment_chain [] cex5_dfr negT_dfe "202580").1,
   (fall_enrollment_chain [] cex5_dfr negT_dfe "202580").2 (by decide)⟩

/-- C6: the pell cohort intersection never exceeds the full cohort row
count. -/
theorem cohort_pell_le_cohort_size (dfp : List AidRow) (dfr : List CohortRow)
    (term : String) : grs_cohort_pell dfp dfr term ≤ grs_cohort dfr term :=
  le_trans (Finset.card_le_card Finset.inter_subset_right) (idSet_card_le _ _)

/-- C7: on a non-empty cohort, `grs_cohort_grad` and
`second_year_retention_rate` both return a value in `[0, 1]` that is a whole
number of thousandths. -/
theorem rate_in_unit_interval (dfr : List CohortRow) (term : String) (yearsToGrad : Int)
    (h : grs_cohort dfr term ≠ 0) :
    (∃ r, grs_cohort_grad dfr term yearsToGrad = .ok r ∧
      0 ≤ r ∧ r ≤ 1 ∧ ∃ k : Int, r = (k : Rat) / 1000) ∧
    (∃ r, second_year_retention_rate dfr term = .ok r ∧
      0 ≤ r ∧ r ≤ 1 ∧ ∃ k : Int, r = (k : Rat) / 1000) := by
  have hpos : 0 < grs_cohort dfr term := Nat.pos_of_ne_zero h
  have hposQ : (0 : Rat) < (grs_cohort dfr term : Rat) := by exact_mod_cast hpos
  constructor
  · refine ⟨_, by unfold grs_cohort_grad; rw [if_neg h], ?_⟩
    have hle : (dfr.filter (fun r => r.cohortName == some (construct_cohort term) &&
        ytgLE yearsToGrad r)).length ≤ grs_cohort dfr term :=
      length_filter_and_le dfr _ _
    have hq : (0 : Rat) ≤ mkRat ((dfr.filter (fun r =>
        r.cohortName == some (construct_cohort term) && ytgLE yearsToGrad r)).length)
        (grs_cohort dfr term) ∧ mkRat ((dfr.filter (fun r =>
        r.cohortName == some (construct_cohort term) && ytgLE yearsToGrad r)).length)
        (grs_cohort dfr term) ≤ 1 := by
      rw [Rat.mkRat_eq_div]
      constructor
      · positivity
      · rw [div_le_one (by exact_mod_cast hposQ)]
        exact_mod_cast hle
    exact round3_bounds hq.1 hq.2
  · refine ⟨_, by unfold second_year_retention_rate; rw [if_neg h], ?_⟩
    have hle : (dfr.filter (fun r => r.cohortName == some (construct_cohort term) &&
        r.secondFall == some (adjust_term term 1))).length ≤ grs_cohort dfr term :=
      length_filter_and_le dfr _ _
    have hq : (0 : Rat) ≤ mkRat ((dfr.filter (fun r =>
        r.cohortName == some (construct_cohort term) &&
        r.secondFall == some (adjust_term term 1))).length)
        (grs_cohort dfr term) ∧ mkRat ((dfr.filter (fun r =>
        r.cohortName == some (construct_cohort term) &&
        r.secondFall == some (adjust_term term 1))).length)
        (grs_cohort dfr term) ≤ 1 := by
      rw [Rat.mkRat_eq_div]
      constructor
      · positivity
      · rw [div_le_one (by exact_mod_cast hposQ)]
        exact_mod_cast hle
    exact round3_bounds hq.1 hq.2

/-- Witness for C7 at the Scenario C table. -/
theorem rate_in_unit_interval_witness :
    grs_cohort scenC_dfr "202580" ≠ 0 ∧
    ((∃ r, grs_cohort_grad scenC_dfr "202580" 4 = .ok r ∧
       0 ≤ r ∧ r ≤ 1 ∧ ∃ k : Int, r = (k : Rat) / 1000) ∧
     (∃ r, second_year_retention_rate scenC_dfr "202580" = .ok r ∧
       0 ≤ r ∧ r ≤ 1 ∧ ∃ k : Int, r = (k : Rat) / 1000)) :=
  ⟨by decide, rate_in_unit_interval scenC_dfr "202580" 4 (by decide)⟩

/-- C8 counterexample: a shift far enough below year 0 loses the year, so
the round trip fails for that integer. -/
theorem adjust_term_round_trip_cex :
    adjust_term (adjust_term "202580" (-3000)) 3000 ≠ "202580" := by
  decide

/-- C8 amended: for a valid term code and any integer shift that keeps the
calendar year inside the 4-digit range 0 … 9999, shifting is reversible;
shifting by 0 is the identity, and the 2-digit suffix is invariant. -/
theorem adjust_term_round_trip (t : String) (n : Int)
    (hlen : t.length = 6) (hy : (year4? (t.take 4)).isSome)
    (hlo : 0 ≤ (((year4? (t.take 4)).getD 0 : Nat) : Int) + n)
    (hhi : (((year4? (t.take 4)).getD 0 : Nat) : Int) + n ≤ 9999) :
    adjust_term (adjust_term t n) (-n) = t ∧ adjust_term t 0 = t ∧
    (adjust_term t n).drop 4 = t.drop 4 := by
  obtain ⟨y, hy'⟩ := Option.isSome_iff_exists.mp hy
  rw [hy'] at hlo hhi
  simp only [Option.getD_some] at hlo hhi
  have htake : pad4 y = t.take 4 := pad4_year4? hy'
  have hadj : adjust_term t n = pad4 (((y : Int) + n).toNat) ++ t.drop 4 := by
    unfold adjust_term
    rw [hy', Option.getD_some]
  have hkle : ((y : Int) + n).toNat ≤ 9999 := by omega
  refine ⟨?_, ?_, ?_⟩
  · rw [hadj]
    unfold adjust_term
    rw [take4_append, year4?_pad4, Nat.mod_eq_of_lt (by omega), drop4_append]
    have hback : (((((y : Int) + n).toNat : Nat) : Int) + -n).toNat = y := by omega
    rw [Option.getD_some, hback, htake, take_append_drop4]
  · unfold adjust_term
    rw [hy']
    have hzero : (((y : Nat) : Int) + 0).toNat = y := by omega
    rw [Option.getD_some, hzero, htake, take_append_drop4]
  · rw [hadj, drop4_append]

/-- Witness for C8 at the term 202580 shifted by one year. -/
theorem adjust_term_round_trip_witness :
    ("202580" : String).length = 6 ∧ (year4? ("202580".take 4)).isSome = true ∧
    0 ≤ (((year4? ("202580".take 4)).getD 0 : Nat) : Int) + 1 ∧
    (((year4? ("202580".take 4)).getD 0 : Nat) : Int) + 1 ≤ 9999 ∧
    (adjust_term (adjust_term "202580" 1) (-1) = "202580" ∧
     adjust_term "202580" 0 = "202580" ∧
     (adjust_term "202580" 1).drop 4 = "202580".drop 4) :=
  ⟨by decide, by decide, by decide, by decide,
   adjust_term_round_trip "202580" 1 (by decide) (by decide) (by decide) (by decide)⟩

/-- C9: the years-to-graduation parse never raises: a blank or non-numeric
cell simply fails the graduation test, and both graduation-rate functions
return a value (not a parse error) whenever their denominator is
non-zero. -/
theorem ytg_parse_tolerant (dfp : List AidRow) (dfr : List CohortRow) (term : String)
    (yearsToGrad : Int) :
    (∀ r : CohortRow,
      (r.yearsToGrad = none ∨ ∃ s, r.yearsToGrad = some s ∧ toNumeric? s = none) →
      ytgLE yearsToGrad r = false) ∧
    (grs_cohort dfr term ≠ 0 →
      ∃ q, grs_cohort_grad dfr term yearsToGrad = .ok q) ∧
    (grs_cohort_pell dfp dfr term ≠ 0 →
      ∃ q, grs_cohort_pell_grad dfp dfr term yearsToGrad = .ok q) := by
  refine ⟨?_, ?_, ?_⟩
  · intro r hr
    rcases hr with hnone | ⟨s, hs, hn⟩
    · simp [ytgLE, hnone]
    · simp [ytgLE, hs, hn]
  · intro h
    unfold grs_cohort_grad
    rw [if_neg h]
    exact ⟨_, rfl⟩
  · intro h
    unfold grs_cohort_pell_grad
    rw [if_neg h]
    exact ⟨_, rfl⟩

/-- Witness for C9: a non-numeric cell fails the test, and both functions
return values on the tolerant tables. -/
theorem ytg_parse_tolerant_witness :
    ytgLE 4 ⟨some "t1", some "2025 Fall, Full-Time", some "n/a", some "202680"⟩ = false ∧
    (∃ q, grs_cohort_grad tolerant_dfr "202580" 4 = .ok q) ∧
    (∃ q, grs_cohort_pell_grad tolerant_dfp tolerant_dfr "202580" 4 = .ok q) :=
  ⟨(ytg_parse_tolerant tolerant_dfp tolerant_dfr "202580" 4).1 _
     (Or.inr ⟨"n/a", rfl, by decide⟩),
   (ytg_parse_tolerant tolerant_dfp tolerant_dfr "202580" 4).2.1 (by decide),
   (ytg_parse_tolerant tolerant_dfp tolerant_dfr "202580" 4).2.2 (by decide)⟩

/-- C10: `fall_enrollment(term, pell=False, transfer=False)` is the distinct
enrolled count minus the distinct transfer-cohort count — counting transfer
ids whether or not they are enrolled — so never-enrolled transfer ids drive
it negative: one enrolled student against two never-enrolled transfer ids
yields -1. -/
theorem fall_enrollment_can_be_negative :
    (∀ (dfp : List AidRow) (dfr : List CohortRow) (dfe : List EnrollRow) (term : String),
      fall_enrollment dfp dfr dfe term false false =
        ((specE dfe term).card : Int) - ((specT dfr term).card : Int)) ∧
    fall_enrollment [] negT_dfr negT_dfe "202580" false false = -1 :=
  ⟨fun dfp dfr dfe term => fe_ff dfp dfr dfe term, by decide⟩

end IrPellAccepts
